import Mathlib

/-
Verification of the prompt-construction subsystem (browser_use/agent/prompts.py):
a shallow embedding of SystemPrompt, AgentMessagePrompt and PlannerPrompt,
with theorems about error truncation, scroll-boundary markers, result ordering,
the vision branch, and purity of the system messages.

Strings are modelled as Lean `String` (sequences of unicode code points, matching
Python string semantics for the operations used: length, slicing, concatenation).
The wall clock read by `datetime.now()` is threaded explicitly as a `World` value,
so that independence from it can be stated.  All braces, apostrophes and backticks
inside the transcribed prompt literals are written with \x escapes.
-/

/-- Ambient effect state available to the program: the wall-clock reading
(already rendered by strftime to minute precision, as the code does) and an
invocation counter.  Pure code ignores it. -/
structure World where
  now : String
  calls : Nat

/-- Python truthiness of an optional string: `None` and the empty string are falsy. -/
def truthyStr : Option String → Bool
  | none => false
  | some s => s != ""

/-- Python `x or 0` for an optional integer: `None` maps to 0, a number to itself. -/
def pyOr0 : Option Nat → Nat
  | none => 0
  | some k => k

/-- Rendering of an optional integer by a Python f-string. -/
def optNatRepr : Option Nat → String
  | none => "None"
  | some k => toString k

/-- Python negative-bound tail slice `s[-b:]`: for `b = 0` this is `s[0:]`, the
whole string; for `b > 0` it is the last `min (length s) b` characters. -/
def pyTailSlice (s : String) (b : Nat) : String :=
  if b = 0 then s else String.mk (s.data.drop (s.data.length - b))

/-- Concatenation of a list of strings. -/
def concatAll : List String → String
  | [] => ""
  | s :: rest => s ++ concatAll rest

/-- Naive substring test: does `pat` occur contiguously inside `s`? -/
def containsSub (s pat : String) : Bool :=
  (List.range (s.data.length + 1)).any fun i => pat.data.isPrefixOf (s.data.drop i)

/-- Result of one executed action, as fed back into the next prompt
(`browser_use.agent.views.ActionResult`, the two fields this module reads). -/
structure ActionResult where
  extracted_content : Option String
  error : Option String

/-- Step counters (`browser_use.agent.views.AgentStepInfo`). -/
structure AgentStepInfo where
  step_number : Nat
  max_steps : Nat

/-- Snapshot of the browser (`browser_use.browser.views.BrowserState`, the fields
this module reads).  `element_tree` is the external DOM renderer, modelled by its
observable contract: `include_attributes ↦ clickable_elements_to_string(...)`.
`tabs` is modelled by its textual rendering, which is all the f-string uses. -/
structure BrowserState where
  url : String
  tabs : String
  element_tree : List String → String
  pixels_above : Option Nat
  pixels_below : Option Nat
  screenshot : Option String

/-- One block of a multimodal chat message. -/
inductive ContentBlock where
  | text (s : String)
  | image_url (url : String)
deriving DecidableEq

/-- A chat message: plain text, or a list of content blocks. -/
inductive HumanMessage where
  | textOnly (content : String)
  | blocks (content : List ContentBlock)
deriving DecidableEq

/-- Text payload of a message: the plain text, or the concatenation of its text blocks. -/
def messageText : HumanMessage → String
  | .textOnly s => s
  | .blocks l => concatAll (l.filterMap fun b => match b with
      | .text s => some s
      | .image_url _ => none)

/-- Whether a content block is a text block. -/
def isTextBlock : ContentBlock → Bool
  | .text _ => true
  | .image_url _ => false

/-- Number of text blocks of a message (a plain-text message counts as one). -/
def countTextBlocks : HumanMessage → Nat
  | .textOnly _ => 1
  | .blocks l => (l.filter isTextBlock).length

/-- Number of image blocks of a message. -/
def countImageBlocks : HumanMessage → Nat
  | .textOnly _ => 0
  | .blocks l => (l.filter fun b => !isTextBlock b).length

/-- Body of `SystemPrompt.important_rules`: the fixed rules text literal, before the
max-actions closing sentence is appended (transcribed verbatim from the source). -/
def rulesBody : String :=
  "\n1. RESPONSE FORMAT: You must ALWAYS respond with valid JSON in this exact format:\n\t\x7b\n\t\t\"thought\": \"Deep reasoning about the current state which is represented by the screenshot of the browser window and working memory. Your action should be guided by this thought.\",\n\t\t\"action\": [\n\t\t\t\x7b\n\t\t\t\"<action_name>\": \x7b\n\t\t\t\t\t// action-specific parameters\n\t\t\t\x7d,\n\t\t\t... more actions in sequence\n\t\t],\n\t \t\"memory\": \"Important information to remember after the action is executed. This information will be added to the working memory. Keep all the relevant facts, visited websites, clicked or viewed elements, etc.\"\n   \x7d\n\n2. ACTIONS: You can specify multiple actions in the list to be executed in sequence. But always specify only one action name per item.\n\n   Common action sequences:\n   - Form filling: [\n       \x7b\"input_text\": \x7b\"index\": 1, \"text\": \"username\"\x7d\x7d,\n       \x7b\"input_text\": \x7b\"index\": 2, \"text\": \"password\"\x7d\x7d,\n       \x7b\"click_element\": \x7b\"index\": 3\x7d\x7d\n     ]\n   - Navigation and extraction: [\n       \x7b\"open_new_tab\": \x7b\x7d\x7d,\n       \x7b\"go_to_url\": \x7b\"url\": \"https://example.com\"\x7d\x7d,\n     ]\n\n\n3. ELEMENT INTERACTION:\n   - Only use indexes that exist in the provided element list\n   - Each element has a unique index number (e.g., \"[33]<button>\")\n   - Elements marked with \"[]Non-interactive text\" are non-interactive (for context only)\n\n4. NAVIGATION & ERROR HANDLING:\n   - If no suitable elements exist, use other functions to complete the task\n   - If stuck, try alternative approaches - like going back to a previous page, new search, new tab etc.\n   - Handle popups/cookies by accepting or closing them\n   - Use scroll to find elements you are looking for\n   - If you want to research something, open a new tab instead of using the current tab\n   - If captcha pops up, and you cant solve it, either ask for human help or try to continue the task on a different page.\n\n5. TASK COMPLETION:\n   - Use the done action as the last action as soon as the ultimate task is complete\n   - Dont use \"done\" before you are done with everything the user asked you. \n   - If you have to do something repeatedly for example the task says for \"each\", or \"for all\", or \"x times\", count always inside \"memory\" how many times you have done it and how many remain. Don\x27t stop until you have completed like the task asked you. Only call done after the last step.\n   - Don\x27t hallucinate actions\n   - If the ultimate task requires specific information - make sure to include everything in the done function. This is what the user will see. Do not just say you are done, but include the requested information of the task.\n\n6. VISUAL CONTEXT:\n   - use the image(s) to understand the page layout\n   - Bounding boxes with labels correspond to element indexes\n   - Each bounding box and its label have the same color\n   - Most often the label is inside the bounding box, on the top right\n   - Visual context helps verify element locations and relationships\n   - sometimes labels overlap, so use the context to verify the correct element\n\n7. Form filling:\n   - If you fill an input field and your action sequence is interrupted, most often a list with suggestions popped up under the field and you need to first select the right element from the suggestion list.\n\n8. ACTION SEQUENCING:\n   - Actions are executed in the order they appear in the list\n   - Each action should logically follow from the previous one\n   - If the page changes after an action, the sequence is interrupted and you get the new state.\n   - If content only disappears the sequence continues.\n   - Only provide the action sequence until you think the page will change.\n   - only use multiple actions if it makes sense.\n\n9. Long tasks:\n- If the task is long keep track of the status in the memory. If the ultimate task requires multiple subinformation, keep track of the status in the memory.\n\n10. Exploration:\n- If information required to complete the task is not fully visible, try scrolling down or up or interacting with the page elements which might help you get more information.\n\n"

/-- Text returned by `SystemPrompt.input_format` (transcribed verbatim). -/
def inputFormatText : String :=
  "\nINPUT STRUCTURE:\n1. Current URL: The webpage you\x27re currently on\n2. Available Tabs: List of open browser tabs\n3. Interactive Elements: List in the format:\n   index[:]<element_type>element_text</element_type>\n   - index: Numeric identifier for interaction\n   - element_type: HTML element type (button, input, etc.)\n   - element_text: Visible text or element description\n\nExample:\n[33]<button>Submit Form</button>\n[] Non-interactive text\n\n\nNotes:\n- Only elements with numeric indexes inside [] are interactive\n- [] elements provide context but cannot be interacted with\n"

/-- Fragment of the `AGENT_PROMPT` f-string before `{self.input_format()}`. -/
def agentPromptHeader : String :=
  "You are a precise browser automation agent that interacts with websites through structured commands. Your role is to:\n1. Analyze the provided webpage elements and structure\n2. Use the given information to accomplish the ultimate task\n3. Respond with valid JSON containing your next action sequence and state assessment\n\n\n"

/-- Fragment of `AGENT_PROMPT` between `{self.input_format()}` and `{self.important_rules()}`. -/
def agentPromptSep1 : String :=
  "\n\n"

/-- Fragment of `AGENT_PROMPT` between `{self.important_rules()}` and the action description. -/
def agentPromptSep2 : String :=
  "\n\nFunctions:\n"

/-- Fragment of `AGENT_PROMPT` after `{self.default_action_description}`. -/
def agentPromptFooter : String :=
  "\n\nRemember: Your responses must be valid JSON matching the specified format. Each action in the sequence must be valid."

/-- Content of the `SystemMessage` returned by `PlannerPrompt.get_system_message`
(transcribed verbatim). -/
def plannerText : String :=
  "You are a planning agent that helps break down tasks into smaller steps and reason about the current state.\nYour role is to:\n1. Analyze the current state and history\n2. Evaluate progress towards the ultimate goal\n3. Identify potential challenges or roadblocks\n4. Suggest the next high-level steps to take\n\nInside your messages, there will be AI messages from different agents with different formats.\n\nYour output format should be always a JSON object with the following fields:\n\x7b\n    \"state_analysis\": \"Brief analysis of the current state and what has been done so far\",\n    \"progress_evaluation\": \"Evaluation of progress towards the ultimate goal (as percentage and description)\",\n    \"challenges\": \"List any potential challenges or roadblocks\",\n    \"next_steps\": \"List 2-3 concrete next steps to take\",\n    \"reasoning\": \"Explain your reasoning for the suggested next steps\"\n\x7d\n\nIgnore the other AI messages output structures.\n\nKeep your responses concise and focused on actionable insights."

/-- Fragment of the `state_description` f-string before `{self.state.url}`. -/
def sdPart0 : String :=
  "\n[Task history memory ends here]\n[Current state starts here]\nYou will see the following only once - if you need to remember it and you dont know it yet, write it down in the memory:\nCurrent url: "

/-- Fragment of `state_description` between the url and `{self.state.tabs}`. -/
def sdPart1 : String :=
  "\nAvailable tabs:\n"

/-- Fragment of `state_description` between the tabs and `{elements_text}`. -/
def sdPart2 : String :=
  "\nInteractive elements from current page:\n"

/-- Fragment of `state_description` between `{elements_text}` and `{step_info_description}`. -/
def sdPart3 : String :=
  "\n"

/-- Fragment of `state_description` after `{step_info_description}`. -/
def sdPart4 : String :=
  "\n"

namespace SystemPrompt

/-- Embedding of `SystemPrompt.important_rules`: the fixed rules body followed by the
interpolated closing sentence `   - use maximum {max_actions_per_step} actions per sequence`. -/
def important_rules (max_actions_per_step : Int) : String :=
  rulesBody ++ ("   - use maximum " ++ toString max_actions_per_step ++ " actions per sequence")

/-- Embedding of `SystemPrompt.input_format`. -/
def input_format : String := inputFormatText

/-- Embedding of `SystemPrompt.get_system_message`: the `AGENT_PROMPT` f-string assembled
from its fragments, the input format, the rules, and the caller-supplied action
description.  It takes the ambient `World` (clock, call counter) and ignores it,
as the source method reads neither. -/
def get_system_message (action_description : String) (max_actions_per_step : Int)
    (_w : World) : String :=
  agentPromptHeader ++ input_format ++ agentPromptSep1 ++
    important_rules max_actions_per_step ++ agentPromptSep2 ++ action_description ++
    agentPromptFooter

end SystemPrompt

namespace AgentMessagePrompt

/-- Scroll-boundary wrapping of the rendered element tree (lines 168-181 of the source):
a non-empty rendering is prefixed with `[Start of page]` or a pixels-above hint and
suffixed with `[End of page]` or a pixels-below hint; an empty rendering becomes the
sentinel `empty page`.  Python truthiness of `pixels_above or 0 > 0` is `pyOr0 _ > 0`. -/
def wrapElements (elements_text : String) (pixels_above pixels_below : Option Nat) : String :=
  if elements_text != "" then
    let t1 :=
      if pyOr0 pixels_above > 0 then
        "... " ++ optNatRepr pixels_above ++ " pixels above - scroll to see more ...\n" ++
          elements_text
      else
        "[Start of page]\n" ++ elements_text
    if pyOr0 pixels_below > 0 then
      t1 ++ ("\n... " ++ optNatRepr pixels_below ++ " pixels below - scroll to see more ...")
    else
      t1 ++ "\n[End of page]"
  else
    "empty page"

/-- Step-info line: `Current step: {n+1}/{max}` when step info is supplied, then the
date-and-time stamp (lines 183-188 of the source). -/
def stepInfoText (step_info : Option AgentStepInfo) (time_str : String) : String :=
  (match step_info with
   | some info => "Current step: " ++ toString (info.step_number + 1) ++ "/" ++
       toString info.max_steps
   | none => "") ++ ("Current date and time: " ++ time_str)

/-- Lines appended for one prior `ActionResult` at 0-based position `i` of `n` results
(lines 202-209 of the source): an `Action result` line when `extracted_content` is
truthy, then an `Action error` line with the `...`-prefixed truncated tail when
`error` is truthy. -/
def resultBlock (i n max_error_length : Nat) (r : ActionResult) : String :=
  (if truthyStr r.extracted_content then
     "\nAction result " ++ toString (i + 1) ++ "/" ++ toString n ++ ": " ++
       r.extracted_content.getD ""
   else "") ++
  (if truthyStr r.error then
     "\nAction error " ++ toString (i + 1) ++ "/" ++ toString n ++ ": ..." ++
       pyTailSlice (r.error.getD "") max_error_length
   else "")

/-- Serialization of all prior results in supplied order: the concatenation of the
per-result blocks, each labelled with its 1-based position. -/
def resultLines (max_error_length : Nat) (rs : List ActionResult) : String :=
  concatAll (rs.enum.map fun p => resultBlock p.1 rs.length max_error_length p.2)

/-- Embedding of the result loop (lines 201-209): `if self.result:` then append one
block per result, in order, onto the state description. -/
def appendResults (max_error_length : Nat) (result : Option (List ActionResult))
    (desc : String) : String :=
  match result with
  | none => desc
  | some l =>
    if l.isEmpty then desc
    else l.enum.foldl (fun acc p => acc ++ resultBlock p.1 l.length max_error_length p.2) desc

/-- The `state_description` f-string (lines 190-199) before the result loop. -/
def stateDescriptionText (st : BrowserState) (include_attributes : List String)
    (step_info : Option AgentStepInfo) (time_str : String) : String :=
  sdPart0 ++ st.url ++ sdPart1 ++ st.tabs ++ sdPart2 ++
    wrapElements (st.element_tree include_attributes) st.pixels_above st.pixels_below ++
    sdPart3 ++ stepInfoText step_info time_str ++ sdPart4

/-- Embedding of `AgentMessagePrompt.get_user_message`: constructor arguments
`(state, result, include_attributes, max_error_length, step_info)` plus the method
argument `use_vision` and the ambient `World` supplying `datetime.now()`.  Returns a
two-block multimodal message when the screenshot is truthy and vision is enabled,
else a plain-text message with the same text. -/
def get_user_message (st : BrowserState) (result : Option (List ActionResult))
    (include_attributes : List String) (max_error_length : Nat)
    (step_info : Option AgentStepInfo) (w : World) (use_vision : Bool) : HumanMessage :=
  let desc := appendResults max_error_length result
    (stateDescriptionText st include_attributes step_info w.now)
  if truthyStr st.screenshot && use_vision then
    HumanMessage.blocks
      [ContentBlock.text desc,
       ContentBlock.image_url ("data:image/png;base64," ++ st.screenshot.getD "")]
  else
    HumanMessage.textOnly desc

end AgentMessagePrompt

namespace PlannerPrompt

/-- Embedding of `PlannerPrompt.get_system_message`: the constant planner text,
independent of the inherited constructor arguments and of the ambient world. -/
def get_system_message (_action_description : String) (_max_actions_per_step : Int)
    (_w : World) : String :=
  plannerText

end PlannerPrompt
lemma truthyStr_eq_true_iff (o : Option String) :
    truthyStr o = true ↔ ∃ s, o = some s ∧ s ≠ "" := by
  cases o <;> simp [truthyStr]

lemma wrapElements_eq (et : String) (pa pb : Option Nat) (h : et ≠ "") :
    AgentMessagePrompt.wrapElements et pa pb =
      (if pyOr0 pa > 0 then
        "... " ++ optNatRepr pa ++ " pixels above - scroll to see more ...\n" ++ et
       else "[Start of page]\n" ++ et) ++
      (if pyOr0 pb > 0 then
        "\n... " ++ optNatRepr pb ++ " pixels below - scroll to see more ..."
       else "\n[End of page]") := by
  have hbne : (et != "") = true := by simpa [bne] using h
  by_cases h1 : pyOr0 pa > 0 <;> by_cases h2 : pyOr0 pb > 0 <;>
    simp [AgentMessagePrompt.wrapElements, hbne, h1, h2]

/-- C5: an empty element-tree rendering always serializes to the literal sentinel
`empty page`; no `[Start of page]`/`[End of page]` boundary marker and no pixel
scroll hint are emitted, whatever the pixel counts are. -/
theorem empty_tree_serializes_empty_page (pa pb : Option Nat) :
    AgentMessagePrompt.wrapElements "" pa pb = "empty page" ∧
    containsSub (AgentMessagePrompt.wrapElements "" pa pb) "[Start of page]" = false ∧
    containsSub (AgentMessagePrompt.wrapElements "" pa pb) "[End of page]" = false ∧
    containsSub (AgentMessagePrompt.wrapElements "" pa pb) "pixels" = false := by
  have h : AgentMessagePrompt.wrapElements "" pa pb = "empty page" := by
    simp [AgentMessagePrompt.wrapElements]
  refine ⟨h, ?_, ?_, ?_⟩ <;> rw [h] <;> rfl

/-- C2: a non-empty element rendering is prefixed with `[Start of page]` when the
effective pixels-above count is 0 and with a scroll hint containing `k` when
`pixels_above = k > 0`; symmetrically it is suffixed with `[End of page]` or a
pixels-below hint containing `k`. -/
theorem boundary_markers (et : String) (pa pb : Option Nat) (h : et ≠ "") :
    (pyOr0 pa = 0 →
      ∃ t, AgentMessagePrompt.wrapElements et pa pb = "[Start of page]\n" ++ t) ∧
    (∀ k, pa = some k → 0 < k →
      ∃ t, AgentMessagePrompt.wrapElements et pa pb =
        ("... " ++ toString k ++ " pixels above - scroll to see more ...\n") ++ t) ∧
    (pyOr0 pb = 0 →
      ∃ t, AgentMessagePrompt.wrapElements et pa pb = t ++ "\n[End of page]") ∧
    (∀ k, pb = some k → 0 < k →
      ∃ t, AgentMessagePrompt.wrapElements et pa pb =
        t ++ ("\n... " ++ toString k ++ " pixels below - scroll to see more ...")) := by
  rw [wrapElements_eq et pa pb h]
  refine ⟨?_, ?_, ?_, ?_⟩
  · intro h0
    have h1 : ¬ pyOr0 pa > 0 := by omega
    rw [if_neg h1]
    exact ⟨et ++ _, by rw [String.append_assoc]⟩
  · intro k hk hkpos
    subst hk
    have h1 : pyOr0 (some k) > 0 := hkpos
    rw [if_pos h1]
    by_cases h2 : pyOr0 pb > 0
    · rw [if_pos h2]
      refine ⟨et ++ ("\n... " ++ optNatRepr pb ++ " pixels below - scroll to see more ..."), ?_⟩
      simp [optNatRepr, String.append_assoc]
    · rw [if_neg h2]
      refine ⟨et ++ "\n[End of page]", ?_⟩
      simp [optNatRepr, String.append_assoc]
  · intro h0
    have h2 : ¬ pyOr0 pb > 0 := by omega
    rw [if_neg h2]
    exact ⟨_, rfl⟩
  · intro k hk hkpos
    subst hk
    have h2 : pyOr0 (some k) > 0 := hkpos
    rw [if_pos h2]
    exact ⟨_, rfl⟩

/-- Witness for C2: the spec scenario with 120 pixels above, 0 below and the element
line `[1]<a>Home</a>`. -/
theorem boundary_markers_witness :
    AgentMessagePrompt.wrapElements "[1]<a>Home</a>" (some 120) (some 0) =
      "... 120 pixels above - scroll to see more ...\n[1]<a>Home</a>\n[End of page]" ∧
    (∃ t, AgentMessagePrompt.wrapElements "[1]<a>Home</a>" (some 120) (some 0) =
      ("... " ++ toString 120 ++ " pixels above - scroll to see more ...\n") ++ t) ∧
    (∃ t, AgentMessagePrompt.wrapElements "[1]<a>Home</a>" (some 120) (some 0) =
      t ++ "\n[End of page]") := by
  refine ⟨rfl, ?_, ?_⟩
  · exact (boundary_markers "[1]<a>Home</a>" (some 120) (some 0) (by decide)).2.1
      120 rfl (by decide)
  · exact (boundary_markers "[1]<a>Home</a>" (some 120) (some 0) (by decide)).2.2.1 rfl

/-- C10: an absent pixel count is treated exactly as an explicit zero, so the wrapped
output is identical in the two cases, and a non-empty rendering gets the
`[Start of page]` prefix (resp. `[End of page]` suffix). -/
theorem absent_pixels_as_zero (et : String) (pa pb : Option Nat) :
    AgentMessagePrompt.wrapElements et none pb =
      AgentMessagePrompt.wrapElements et (some 0) pb ∧
    AgentMessagePrompt.wrapElements et pa none =
      AgentMessagePrompt.wrapElements et pa (some 0) ∧
    (et ≠ "" →
      (∃ t, AgentMessagePrompt.wrapElements et none pb = "[Start of page]\n" ++ t) ∧
      (∃ t, AgentMessagePrompt.wrapElements et pa none = t ++ "\n[End of page]")) := by
  by_cases h : et = ""
  · subst h
    refine ⟨rfl, rfl, by simp⟩
  · refine ⟨?_, ?_, ?_⟩
    · rw [wrapElements_eq et none pb h, wrapElements_eq et (some 0) pb h]
      simp [pyOr0]
    · rw [wrapElements_eq et pa none h, wrapElements_eq et pa (some 0) h]
      simp [pyOr0]
    · intro _
      constructor
      · rw [wrapElements_eq et none pb h]
        rw [if_neg (by simp [pyOr0])]
        by_cases h2 : pyOr0 pb > 0 <;> [rw [if_pos h2]; rw [if_neg h2]] <;>
          exact ⟨et ++ _, by rw [String.append_assoc]⟩
      · rw [wrapElements_eq et pa none h]
        rw [if_neg (show ¬ pyOr0 none > 0 by simp [pyOr0])]
        exact ⟨_, rfl⟩

/-- Witness for C10 at a concrete non-empty rendering and concrete pixel counts. -/
theorem absent_pixels_as_zero_witness :
    AgentMessagePrompt.wrapElements "x" none (some 4) =
      AgentMessagePrompt.wrapElements "x" (some 0) (some 4) ∧
    AgentMessagePrompt.wrapElements "x" (some 3) none =
      AgentMessagePrompt.wrapElements "x" (some 3) (some 0) ∧
    (∃ t, AgentMessagePrompt.wrapElements "x" none (some 4) = "[Start of page]\n" ++ t) ∧
    (∃ t, AgentMessagePrompt.wrapElements "x" (some 3) none = t ++ "\n[End of page]") := by
  have h := absent_pixels_as_zero "x" (some 3) (some 4)
  exact ⟨h.1, h.2.1, (h.2.2 (by decide)).1, (h.2.2 (by decide)).2⟩
lemma resultBlock_error_only (i n B : Nat) (e : String) (he : e ≠ "") :
    AgentMessagePrompt.resultBlock i n B (ActionResult.mk none (some e)) =
      ("\nAction error " ++ toString (i + 1) ++ "/" ++ toString n ++ ": ...") ++
        pyTailSlice e B := by
  have hbne : (e != "") = true := by simpa [bne] using he
  simp [AgentMessagePrompt.resultBlock, truthyStr, hbne, String.append_assoc]

lemma pyTailSlice_length (e : String) (B : Nat) (hB : 0 < B) :
    (pyTailSlice e B).length = min e.length B := by
  have hB' : B ≠ 0 := Nat.pos_iff_ne_zero.mp hB
  simp only [pyTailSlice, if_neg hB', String.length_mk, List.length_drop]
  have : e.length = e.data.length := rfl
  omega

lemma pyTailSlice_suffix (e : String) (B : Nat) (hB : 0 < B) :
    ∃ pre, e = pre ++ pyTailSlice e B := by
  have hB' : B ≠ 0 := Nat.pos_iff_ne_zero.mp hB
  refine ⟨String.mk (e.data.take (e.data.length - B)), ?_⟩
  apply String.ext
  simp only [pyTailSlice, if_neg hB', String.data_append]
  exact (List.take_append_drop _ _).symm

/-- C1 counterexample: with bound `B = 5` and the error `abc` of length `3 ≤ B`, the
emitted line still carries the `...` marker, refuting that the marker is prefixed
exactly when `L > B`; moreover with bound `B = 0` the emitted tail has 2 characters,
not `min(2,0) = 0`. -/
theorem ellipsis_always_counterexample :
    AgentMessagePrompt.resultBlock 0 1 5 (ActionResult.mk none (some "abc")) =
      "\nAction error 1/1: ...abc" ∧
    String.length "abc" ≤ 5 ∧
    containsSub "\nAction error 1/1: ...abc" "..." = true ∧
    AgentMessagePrompt.resultBlock 0 1 0 (ActionResult.mk none (some "ab")) =
      "\nAction error 1/1: ...ab" ∧
    min (String.length "ab") 0 = 0 := by
  refine ⟨rfl, by decide, rfl, rfl, by decide⟩

/-- C1 (amended): for every positive bound `B` and non-empty error string of length `L`,
the emitted line is the `Action error i/n:` label followed by the `...` marker (which
is always present, for `L ≤ B` as well as `L > B`) and then exactly the last
`min(L,B)` characters of the error; shorter strings are emitted in full, never
padded, and the tail is a suffix of the original error string. -/
theorem error_truncation (i n B : Nat) (e : String) (hB : 0 < B) (he : e ≠ "") :
    AgentMessagePrompt.resultBlock i n B (ActionResult.mk none (some e)) =
      ("\nAction error " ++ toString (i + 1) ++ "/" ++ toString n ++ ": ...") ++
        pyTailSlice e B ∧
    (pyTailSlice e B).length = min e.length B ∧
    ∃ pre, e = pre ++ pyTailSlice e B :=
  ⟨resultBlock_error_only i n B e he, pyTailSlice_length e B hB, pyTailSlice_suffix e B hB⟩

/-- Witness for C1: the spec scenario `maxErrorLength = 5`, error `connection refused`;
the rendered line is `Action error 1/1: ...fused`, ending in `...fused`. -/
theorem error_truncation_witness :
    (AgentMessagePrompt.resultBlock 0 1 5 (ActionResult.mk none (some "connection refused")) =
      ("\nAction error " ++ toString (0 + 1) ++ "/" ++ toString 1 ++ ": ...") ++
        pyTailSlice "connection refused" 5 ∧
     (pyTailSlice "connection refused" 5).length = min (String.length "connection refused") 5 ∧
     ∃ pre, "connection refused" = pre ++ pyTailSlice "connection refused" 5) ∧
    pyTailSlice "connection refused" 5 = "fused" ∧
    AgentMessagePrompt.resultBlock 0 1 5 (ActionResult.mk none (some "connection refused")) =
      "\nAction error 1/1: ...fused" ∧
    ∃ pre, AgentMessagePrompt.resultBlock 0 1 5
        (ActionResult.mk none (some "connection refused")) = pre ++ "...fused" := by
  refine ⟨error_truncation 0 1 5 "connection refused" (by decide) (by decide), rfl, rfl,
    ⟨"\nAction error 1/1: ", rfl⟩⟩

/-- C9: with `max_error_length = 0` the Python slice `error[-0:]` selects the whole
string, so the emitted line contains the entire non-empty error after the `...`
marker, not an empty tail. -/
theorem zero_bound_keeps_whole_error (i n : Nat) (e : String) (he : e ≠ "") :
    AgentMessagePrompt.resultBlock i n 0 (ActionResult.mk none (some e)) =
      ("\nAction error " ++ toString (i + 1) ++ "/" ++ toString n ++ ": ...") ++ e ∧
    pyTailSlice e 0 = e := by
  have h0 : pyTailSlice e 0 = e := by simp [pyTailSlice]
  exact ⟨by rw [resultBlock_error_only i n 0 e he, h0], h0⟩

/-- Witness for C9 at the concrete error `boom`. -/
theorem zero_bound_keeps_whole_error_witness :
    (AgentMessagePrompt.resultBlock 0 1 0 (ActionResult.mk none (some "boom")) =
      ("\nAction error " ++ toString (0 + 1) ++ "/" ++ toString 1 ++ ": ...") ++ "boom" ∧
     pyTailSlice "boom" 0 = "boom") ∧
    AgentMessagePrompt.resultBlock 0 1 0 (ActionResult.mk none (some "boom")) =
      "\nAction error 1/1: ...boom" :=
  ⟨zero_bound_keeps_whole_error 0 1 "boom" (by decide), rfl⟩

lemma foldl_append_concatAll {β : Type} (f : β → String) :
    ∀ (l : List β) (d : String),
      l.foldl (fun acc p => acc ++ f p) d = d ++ concatAll (l.map f)
  | [], d => by simp [concatAll]
  | p :: l, d => by
    rw [List.foldl_cons, foldl_append_concatAll f l (d ++ f p), List.map_cons]
    simp [concatAll, String.append_assoc]

/-- C4: the serialized result lines are exactly one block per prior result, in the
order supplied by the caller, each labelled with its 1-based position over the total
count; nothing is reordered, deduplicated or dropped, and for `None` or an empty
result list nothing is appended at all. -/
theorem result_ordering (me : Nat) (rs : List ActionResult) (desc : String) :
    AgentMessagePrompt.appendResults me (some rs) desc =
      desc ++ AgentMessagePrompt.resultLines me rs ∧
    AgentMessagePrompt.resultLines me rs =
      concatAll (rs.enum.map fun p => AgentMessagePrompt.resultBlock p.1 rs.length me p.2) ∧
    AgentMessagePrompt.appendResults me none desc = desc ∧
    AgentMessagePrompt.appendResults me (some []) desc = desc := by
  refine ⟨?_, rfl, rfl, by simp [AgentMessagePrompt.appendResults]⟩
  cases rs with
  | nil => simp [AgentMessagePrompt.appendResults, AgentMessagePrompt.resultLines, concatAll]
  | cons r rest =>
    rw [AgentMessagePrompt.appendResults]
    rw [if_neg (by simp)]
    exact foldl_append_concatAll _ _ desc
lemma get_user_message_text_shape (st : BrowserState) (res : Option (List ActionResult))
    (ia : List String) (me : Nat) (si : Option AgentStepInfo) (w : World) :
    AgentMessagePrompt.get_user_message st res ia me si w false =
      HumanMessage.textOnly (AgentMessagePrompt.appendResults me res
        (AgentMessagePrompt.stateDescriptionText st ia si w.now)) := by
  simp [AgentMessagePrompt.get_user_message]

lemma messageText_no_vision (st : BrowserState) (res : Option (List ActionResult))
    (ia : List String) (me : Nat) (si : Option AgentStepInfo) (w : World) :
    messageText (AgentMessagePrompt.get_user_message st res ia me si w false) =
      AgentMessagePrompt.appendResults me res
        (AgentMessagePrompt.stateDescriptionText st ia si w.now) := by
  rw [get_user_message_text_shape]
  rfl

/-- C3: when the screenshot is present (truthy) and vision is enabled, the message is a
composite of exactly one text block and one image block, the image block holding the
inline base64 PNG data URL of the screenshot; when the screenshot is absent or vision
is disabled, the message is text-only; and the text payload is identical to the
text-only branch's in both cases. -/
theorem vision_branch (st : BrowserState) (res : Option (List ActionResult))
    (ia : List String) (me : Nat) (si : Option AgentStepInfo) (w : World) (uv : Bool) :
    (truthyStr st.screenshot = true → uv = true →
      ∃ s, st.screenshot = some s ∧
        AgentMessagePrompt.get_user_message st res ia me si w uv =
          HumanMessage.blocks
            [ContentBlock.text
               (messageText (AgentMessagePrompt.get_user_message st res ia me si w false)),
             ContentBlock.image_url ("data:image/png;base64," ++ s)] ∧
        countTextBlocks (AgentMessagePrompt.get_user_message st res ia me si w uv) = 1 ∧
        countImageBlocks (AgentMessagePrompt.get_user_message st res ia me si w uv) = 1) ∧
    ((truthyStr st.screenshot = false ∨ uv = false) →
      AgentMessagePrompt.get_user_message st res ia me si w uv =
        HumanMessage.textOnly
          (messageText (AgentMessagePrompt.get_user_message st res ia me si w false))) := by
  constructor
  · intro h1 h2
    subst h2
    obtain ⟨s, hs, hne⟩ := (truthyStr_eq_true_iff st.screenshot).mp h1
    have hmain : AgentMessagePrompt.get_user_message st res ia me si w true =
        HumanMessage.blocks
          [ContentBlock.text
             (messageText (AgentMessagePrompt.get_user_message st res ia me si w false)),
           ContentBlock.image_url ("data:image/png;base64," ++ s)] := by
      rw [messageText_no_vision]
      simp [AgentMessagePrompt.get_user_message, hs, truthyStr, hne]
    refine ⟨s, hs, hmain, ?_, ?_⟩ <;>
      rw [hmain] <;> simp [countTextBlocks, countImageBlocks, isTextBlock]
  · intro h
    rcases h with h | h
    · rw [messageText_no_vision]
      simp [AgentMessagePrompt.get_user_message, h]
    · subst h
      rw [get_user_message_text_shape]
      rfl

/-- Witness for C3 at a concrete state carrying the screenshot `IMG` with vision on. -/
theorem vision_branch_witness :
    ∃ s, (BrowserState.mk "u" "[tab]" (fun _ => "") none none (some "IMG")).screenshot =
        some s ∧
      AgentMessagePrompt.get_user_message
          (BrowserState.mk "u" "[tab]" (fun _ => "") none none (some "IMG"))
          none [] 400 none (World.mk "2026-10-12 10:00" 0) true =
        HumanMessage.blocks
          [ContentBlock.text (messageText (AgentMessagePrompt.get_user_message
             (BrowserState.mk "u" "[tab]" (fun _ => "") none none (some "IMG"))
             none [] 400 none (World.mk "2026-10-12 10:00" 0) false)),
           ContentBlock.image_url ("data:image/png;base64," ++ s)] ∧
      countTextBlocks (AgentMessagePrompt.get_user_message
        (BrowserState.mk "u" "[tab]" (fun _ => "") none none (some "IMG"))
        none [] 400 none (World.mk "2026-10-12 10:00" 0) true) = 1 ∧
      countImageBlocks (AgentMessagePrompt.get_user_message
        (BrowserState.mk "u" "[tab]" (fun _ => "") none none (some "IMG"))
        none [] 400 none (World.mk "2026-10-12 10:00" 0) true) = 1 :=
  (vision_branch (BrowserState.mk "u" "[tab]" (fun _ => "") none none (some "IMG"))
    none [] 400 none (World.mk "2026-10-12 10:00" 0) true).1 rfl rfl

/-- C6: SystemPrompt.get_system_message is pure and deterministic: for identical
`(action_description, max_actions_per_step)` the produced text is identical, with no
dependence on the ambient world (wall clock, call count, or other mutable state). -/
theorem system_message_pure (a : String) (m : Int) (w₁ w₂ : World) :
    SystemPrompt.get_system_message a m w₁ = SystemPrompt.get_system_message a m w₂ :=
  rfl

/-- C7: every positive max-actions bound is interpolated verbatim into the rule text;
the rules close with the sentence `- use maximum {m} actions per sequence`, which
occurs inside the full system message. -/
theorem max_actions_interpolated (a : String) (m : Int) (w : World) (_hm : 0 < m) :
    SystemPrompt.important_rules m =
      rulesBody ++ ("   - use maximum " ++ toString m ++ " actions per sequence") ∧
    (∃ pre, SystemPrompt.important_rules m =
      pre ++ ("   - use maximum " ++ toString m ++ " actions per sequence")) ∧
    ∃ pre post, SystemPrompt.get_system_message a m w =
      pre ++ ("   - use maximum " ++ toString m ++ " actions per sequence") ++ post := by
  refine ⟨rfl, ⟨rulesBody, rfl⟩, ?_⟩
  refine ⟨agentPromptHeader ++ SystemPrompt.input_format ++ agentPromptSep1 ++ rulesBody,
    agentPromptSep2 ++ a ++ agentPromptFooter, ?_⟩
  simp [SystemPrompt.get_system_message, SystemPrompt.important_rules, String.append_assoc]

/-- Witness for C7: the spec scenario `max_actions_per_step = 10`; the closing rule
sentence carries the literal bound `10`. -/
theorem max_actions_interpolated_witness :
    ((0 : Int) < 10) ∧
    (SystemPrompt.important_rules 10 =
      rulesBody ++ ("   - use maximum " ++ toString (10 : Int) ++ " actions per sequence") ∧
     (∃ pre, SystemPrompt.important_rules 10 =
       pre ++ ("   - use maximum " ++ toString (10 : Int) ++ " actions per sequence")) ∧
     ∃ pre post, SystemPrompt.get_system_message "" 10 (World.mk "" 0) =
       pre ++ ("   - use maximum " ++ toString (10 : Int) ++ " actions per sequence") ++ post) ∧
    toString (10 : Int) = "10" ∧
    containsSub "   - use maximum 10 actions per sequence" "10" = true := by
  exact ⟨by decide, max_actions_interpolated "" 10 (World.mk "" 0) (by decide), rfl, rfl⟩
set_option maxRecDepth 40000 in
/-- C8: the planner's system message is one fixed constant text, independent of the
configured action catalog, the max-actions setting and the ambient world; the text
names the five response fields `state_analysis`, `progress_evaluation`, `challenges`,
`next_steps` and `reasoning`, and contains the instruction to ignore the output
structures of the other roles in the shared history. -/
theorem planner_fixed_message (a₁ a₂ : String) (m₁ m₂ : Int) (w₁ w₂ : World) :
    PlannerPrompt.get_system_message a₁ m₁ w₁ =
      PlannerPrompt.get_system_message a₂ m₂ w₂ ∧
    PlannerPrompt.get_system_message a₁ m₁ w₁ = plannerText ∧
    (∃ pre post, plannerText = pre ++ "\"state_analysis\"" ++ post) ∧
    (∃ pre post, plannerText = pre ++ "\"progress_evaluation\"" ++ post) ∧
    (∃ pre post, plannerText = pre ++ "\"challenges\"" ++ post) ∧
    (∃ pre post, plannerText = pre ++ "\"next_steps\"" ++ post) ∧
    (∃ pre post, plannerText = pre ++ "\"reasoning\"" ++ post) ∧
    (∃ pre post, plannerText = pre ++ "Ignore the other AI messages output structures." ++ post) := by
  refine ⟨rfl, rfl, ?_, ?_, ?_, ?_, ?_, ?_⟩
  refine ⟨"You are a planning agent that helps break down tasks into smaller steps and reason about the current state.\nYour role is to:\n1. Analyze the current state and history\n2. Evaluate progress towards the ultimate goal\n3. Identify potential challenges or roadblocks\n4. Suggest the next high-level steps to take\n\nInside your messages, there will be AI messages from different agents with different formats.\n\nYour output format should be always a JSON object with the following fields:\n\x7b\n    ", ": \"Brief analysis of the current state and what has been done so far\",\n    \"progress_evaluation\": \"Evaluation of progress towards the ultimate goal (as percentage and description)\",\n    \"challenges\": \"List any potential challenges or roadblocks\",\n    \"next_steps\": \"List 2-3 concrete next steps to take\",\n    \"reasoning\": \"Explain your reasoning for the suggested next steps\"\n\x7d\n\nIgnore the other AI messages output structures.\n\nKeep your responses concise and focused on actionable insights.", rfl⟩
  refine ⟨"You are a planning agent that helps break down tasks into smaller steps and reason about the current state.\nYour role is to:\n1. Analyze the current state and history\n2. Evaluate progress towards the ultimate goal\n3. Identify potential challenges or roadblocks\n4. Suggest the next high-level steps to take\n\nInside your messages, there will be AI messages from different agents with different formats.\n\nYour output format should be always a JSON object with the following fields:\n\x7b\n    \"state_analysis\": \"Brief analysis of the current state and what has been done so far\",\n    ", ": \"Evaluation of progress towards the ultimate goal (as percentage and description)\",\n    \"challenges\": \"List any potential challenges or roadblocks\",\n    \"next_steps\": \"List 2-3 concrete next steps to take\",\n    \"reasoning\": \"Explain your reasoning for the suggested next steps\"\n\x7d\n\nIgnore the other AI messages output structures.\n\nKeep your responses concise and focused on actionable insights.", rfl⟩
  refine ⟨"You are a planning agent that helps break down tasks into smaller steps and reason about the current state.\nYour role is to:\n1. Analyze the current state and history\n2. Evaluate progress towards the ultimate goal\n3. Identify potential challenges or roadblocks\n4. Suggest the next high-level steps to take\n\nInside your messages, there will be AI messages from different agents with different formats.\n\nYour output format should be always a JSON object with the following fields:\n\x7b\n    \"state_analysis\": \"Brief analysis of the current state and what has been done so far\",\n    \"progress_evaluation\": \"Evaluation of progress towards the ultimate goal (as percentage and description)\",\n    ", ": \"List any potential challenges or roadblocks\",\n    \"next_steps\": \"List 2-3 concrete next steps to take\",\n    \"reasoning\": \"Explain your reasoning for the suggested next steps\"\n\x7d\n\nIgnore the other AI messages output structures.\n\nKeep your responses concise and focused on actionable insights.", rfl⟩
  refine ⟨"You are a planning agent that helps break down tasks into smaller steps and reason about the current state.\nYour role is to:\n1. Analyze the current state and history\n2. Evaluate progress towards the ultimate goal\n3. Identify potential challenges or roadblocks\n4. Suggest the next high-level steps to take\n\nInside your messages, there will be AI messages from different agents with different formats.\n\nYour output format should be always a JSON object with the following fields:\n\x7b\n    \"state_analysis\": \"Brief analysis of the current state and what has been done so far\",\n    \"progress_evaluation\": \"Evaluation of progress towards the ultimate goal (as percentage and description)\",\n    \"challenges\": \"List any potential challenges or roadblocks\",\n    ", ": \"List 2-3 concrete next steps to take\",\n    \"reasoning\": \"Explain your reasoning for the suggested next steps\"\n\x7d\n\nIgnore the other AI messages output structures.\n\nKeep your responses concise and focused on actionable insights.", rfl⟩
  refine ⟨"You are a planning agent that helps break down tasks into smaller steps and reason about the current state.\nYour role is to:\n1. Analyze the current state and history\n2. Evaluate progress towards the ultimate goal\n3. Identify potential challenges or roadblocks\n4. Suggest the next high-level steps to take\n\nInside your messages, there will be AI messages from different agents with different formats.\n\nYour output format should be always a JSON object with the following fields:\n\x7b\n    \"state_analysis\": \"Brief analysis of the current state and what has been done so far\",\n    \"progress_evaluation\": \"Evaluation of progress towards the ultimate goal (as percentage and description)\",\n    \"challenges\": \"List any potential challenges or roadblocks\",\n    \"next_steps\": \"List 2-3 concrete next steps to take\",\n    ", ": \"Explain your reasoning for the suggested next steps\"\n\x7d\n\nIgnore the other AI messages output structures.\n\nKeep your responses concise and focused on actionable insights.", rfl⟩
  refine ⟨"You are a planning agent that helps break down tasks into smaller steps and reason about the current state.\nYour role is to:\n1. Analyze the current state and history\n2. Evaluate progress towards the ultimate goal\n3. Identify potential challenges or roadblocks\n4. Suggest the next high-level steps to take\n\nInside your messages, there will be AI messages from different agents with different formats.\n\nYour output format should be always a JSON object with the following fields:\n\x7b\n    \"state_analysis\": \"Brief analysis of the current state and what has been done so far\",\n    \"progress_evaluation\": \"Evaluation of progress towards the ultimate goal (as percentage and description)\",\n    \"challenges\": \"List any potential challenges or roadblocks\",\n    \"next_steps\": \"List 2-3 concrete next steps to take\",\n    \"reasoning\": \"Explain your reasoning for the suggested next steps\"\n\x7d\n\n", "\n\nKeep your responses concise and focused on actionable insights.", rfl⟩
